import Mathlib

/-!
Shallow embedding of the state-reconciliation core of the Remootio Homebridge
accessory (src/src/remootio-accessory.ts). The source file holds two
near-duplicate accessory classes; the spec collapses them into one canonical
design. The embedding below follows the platform-accessory class (lines
628-781 of the source), which carries the full rule set described by the
spec: keyType gating of RelayTrigger events and forcing targetState to
CLOSED on a StateChange to closed.

Door states are the HAP characteristic numeric values (OPEN = 0, CLOSED = 1,
OPENING = 2, CLOSING = 3, STOPPED = 4); the sentinel -1 plays the role of
UNKNOWN, exactly as in the source, where both currentState and targetState
start at -1 and the handlers test them with a comparison against 0.
Adapter commands (sendQuery, sendOpen, sendClose) are modelled as a list of
emitted commands; the Adapter connectivity flags are the two booleans read
by the code.
-/

namespace Remootio

/- HAP constants of Characteristic.CurrentDoorState, as used by the source. -/
namespace currentDoorState

def OPEN : Int := 0

def CLOSED : Int := 1

def OPENING : Int := 2

def CLOSING : Int := 3

def STOPPED : Int := 4

end currentDoorState

/- HAP constants of Characteristic.TargetDoorState, as used by the source. -/
namespace targetDoorState

def OPEN : Int := 0

def CLOSED : Int := 1

end targetDoorState

/-- Mirrors const garageDoorOpenerStateToString of the source: the numeric
door states index into this list. -/
def garageDoorOpenerStateToString : List String :=
  ["OPEN", "CLOSED", "OPENING", "CLOSING", "STOPPED"]

/-- Mirrors the optional data object of the RemootioEvent interface. -/
structure RemootioEventData where
  keyNr : Option Int
  keyType : Option String
  via : Option String
  imeOpen100ms : Option Int

/-- Mirrors the RemootioEvent interface: the event member of a decrypted
payload. The state member is optional because the source checks it against
undefined before use. -/
structure RemootioEvent where
  cnt : Int
  type : String
  state : Option String
  t100ms : Int
  data : Option RemootioEventData

/-- Mirrors the RemootioResponse interface: the response member of a
decrypted payload. The state member is optional because the source checks
it against undefined before use. -/
structure RemootioResponse where
  type : String
  id : Int
  success : Bool
  state : Option String
  t100ms : Int
  relayTriggered : Bool
  errorCode : String

/-- A decrypted payload carries an event member, a response member, both or
neither; the source distinguishes the kinds by checking each member against
undefined. -/
structure RemootioDecryptedPayload where
  event : Option RemootioEvent
  response : Option RemootioResponse

/-- Mirrors the challenge member of a RemootioFrame. -/
structure RemootioChallenge where
  sessionKey : String
  initialActionId : Int

/-- Mirrors RemootioFrame: an undecrypted frame; the source only logs it in
handleIncomingMessage, so only the members it reads appear. -/
structure RemootioFrame where
  type : Option String
  challenge : Option RemootioChallenge

/-- The two Adapter connectivity flags read by the source (this.device). -/
structure RemootioDevice where
  isConnected : Bool
  isAuthenticated : Bool

/-- The commands the source issues on the Adapter. -/
inductive Command where
  | sendQuery
  | sendOpen
  | sendClose
  deriving DecidableEq, Repr

/-- The mutable accessory state: the private fields currentState and
targetState of the accessory class. -/
structure ReconcilerState where
  currentState : Int
  targetState : Int
  deriving DecidableEq, Repr

/-- Field initializers of the accessory class: both fields start at -1, the
sentinel meaning no update has been received yet. -/
def initialState : ReconcilerState :=
  { currentState := -1, targetState := -1 }

/-- Method setCurrentDoorState: the switch over the device-reported state
string; strings outside the four recognized cases fall through and leave
currentState unchanged. -/
def setCurrentDoorState (state : String) (s : ReconcilerState) : ReconcilerState :=
  if state = "open" then { s with currentState := currentDoorState.OPEN }
  else if state = "closed" then { s with currentState := currentDoorState.CLOSED }
  else if state = "opening" then { s with currentState := currentDoorState.OPENING }
  else if state = "closing" then { s with currentState := currentDoorState.CLOSING }
  else s

/-- Method handleIncomingMessage: dispatches a decrypted payload. A
StateChange event updates currentState and, when the reported state is
closed, also forces targetState to CLOSED; a RelayTrigger event is acted on
only when its keyType is the api key, inferring closing from state open and
opening from state closed; a QUERY response updates currentState from the
reported state. An undecrypted frame is only logged. -/
def handleIncomingMessage (frame : Option RemootioFrame)
    (decryptedPayload : Option RemootioDecryptedPayload)
    (s : ReconcilerState) : ReconcilerState :=
  match decryptedPayload with
  | some payload =>
    let s1 :=
      match payload.event with
      | some ev =>
        match ev.state with
        | some st =>
          let sA :=
            if ev.type = "StateChange" then
              let sB := setCurrentDoorState st s
              if st = "closed" then { sB with targetState := targetDoorState.CLOSED }
              else sB
            else s
          let sC :=
            if ev.type = "RelayTrigger" ∧ st = "open" ∧
                ev.data.bind RemootioEventData.keyType = some "api key" then
              setCurrentDoorState "closing" sA
            else sA
          if ev.type = "RelayTrigger" ∧ st = "closed" ∧
              ev.data.bind RemootioEventData.keyType = some "api key" then
            setCurrentDoorState "opening" sC
          else sC
        | none => s
      | none => s
    match payload.response with
    | some resp =>
      match resp.state with
      | some rst => if resp.type = "QUERY" then setCurrentDoorState rst s1 else s1
      | none => s1
    | none => s1
  | none =>
    match frame with
    | some _ => s
    | none => s

/-- Method getCurrentStateHandler: answers the callback with an error while
currentState is below 0 and with currentState otherwise, and in both cases
issues one sendQuery on the Adapter. -/
def getCurrentStateHandler (device : RemootioDevice) (s : ReconcilerState) :
    Except String Int × ReconcilerState × List Command :=
  let result : Except String Int :=
    if s.currentState < 0 then Except.error "No value available"
    else Except.ok s.currentState
  (result, s, [Command.sendQuery])

/-- Method getTargetStateHandler: while targetState is below 0 it errors if
currentState is also below 0 and otherwise adopts currentState as
targetState; it then answers with targetState. -/
def getTargetStateHandler (s : ReconcilerState) : Except String Int × ReconcilerState :=
  if s.targetState < 0 then
    if s.currentState < 0 then (Except.error "No value available", s)
    else
      let s2 := { s with targetState := s.currentState }
      (Except.ok s2.targetState, s2)
  else (Except.ok s.targetState, s)

/-- Method setTargetStateHandler: a missing value errors; a value equal to
the present targetState is a no-op answered with success; otherwise the
Adapter must be connected and authenticated or the call errors with Not
Connected and changes nothing; otherwise targetState is set and sendOpen or
sendClose is issued when the value is OPEN or CLOSED. -/
def setTargetStateHandler (device : RemootioDevice) (newValue : Option Int)
    (s : ReconcilerState) : Except String Unit × ReconcilerState × List Command :=
  match newValue with
  | none => (Except.error "no value", s, [])
  | some newState =>
    let oldState := s.targetState
    if newState ≠ oldState then
      if !device.isConnected || !device.isAuthenticated then
        (Except.error "Not Connected", s, [])
      else
        let s2 := { s with targetState := newState }
        if newState = targetDoorState.OPEN then (Except.ok (), s2, [Command.sendOpen])
        else if newState = targetDoorState.CLOSED then (Except.ok (), s2, [Command.sendClose])
        else (Except.ok (), s2, [])
    else (Except.ok (), s, [])

/-- The states the accessory can be in: the initial state, closed under
every boundary operation and every incoming message. -/
inductive Reachable : ReconcilerState → Prop where
  | init : Reachable initialState
  | incoming (frame : Option RemootioFrame) (p : Option RemootioDecryptedPayload)
      (s : ReconcilerState) : Reachable s →
      Reachable (handleIncomingMessage frame p s)
  | getCurrent (device : RemootioDevice) (s : ReconcilerState) : Reachable s →
      Reachable (getCurrentStateHandler device s).2.1
  | getTarget (s : ReconcilerState) : Reachable s →
      Reachable (getTargetStateHandler s).2
  | setTarget (device : RemootioDevice) (newValue : Option Int)
      (s : ReconcilerState) : Reachable s →
      Reachable (setTargetStateHandler device newValue s).2.1

/-- currentState is the UNKNOWN sentinel or one of the four values the
switch in setCurrentDoorState can write; STOPPED is not among them. -/
def ValidCurrent (s : ReconcilerState) : Prop :=
  s.currentState = -1 ∨ s.currentState = currentDoorState.OPEN ∨
  s.currentState = currentDoorState.CLOSED ∨
  s.currentState = currentDoorState.OPENING ∨
  s.currentState = currentDoorState.CLOSING

/-- C6: get_current_state answers with the No value available error exactly
when currentState is still the UNKNOWN sentinel, otherwise answers with
currentState; it never changes the state and always issues exactly one
sendQuery command. -/
theorem getCurrentState_spec (device : RemootioDevice) (s : ReconcilerState) :
    ((getCurrentStateHandler device s).1 = Except.error "No value available" ↔
      s.currentState < 0) ∧
    (0 ≤ s.currentState →
      (getCurrentStateHandler device s).1 = Except.ok s.currentState) ∧
    (getCurrentStateHandler device s).2.1 = s ∧
    (getCurrentStateHandler device s).2.2 = [Command.sendQuery] := by
  unfold getCurrentStateHandler
  by_cases h : s.currentState < 0 <;> simp [h]

/-- Witness for C6 at a state that has observed CLOSED. -/
theorem getCurrentState_spec_witness :
    (getCurrentStateHandler { isConnected := true, isAuthenticated := true }
       { currentState := 1, targetState := -1 }).1 = Except.ok 1 ∧
    (getCurrentStateHandler { isConnected := true, isAuthenticated := true }
       { currentState := 1, targetState := -1 }).2.2 = [Command.sendQuery] :=
  ⟨(getCurrentState_spec { isConnected := true, isAuthenticated := true }
      { currentState := 1, targetState := -1 }).2.1 (by decide),
   (getCurrentState_spec { isConnected := true, isAuthenticated := true }
      { currentState := 1, targetState := -1 }).2.2.2⟩

/-- C7: get_target_state errors exactly when both targetState and
currentState are the UNKNOWN sentinel; when only targetState is UNKNOWN it
adopts currentState as targetState and answers with it; otherwise it
answers with targetState and changes nothing. -/
theorem getTargetState_spec (s : ReconcilerState) :
    ((getTargetStateHandler s).1 = Except.error "No value available" ↔
      s.targetState < 0 ∧ s.currentState < 0) ∧
    (s.targetState < 0 → 0 ≤ s.currentState →
      (getTargetStateHandler s).1 = Except.ok s.currentState ∧
      (getTargetStateHandler s).2 = { s with targetState := s.currentState }) ∧
    (0 ≤ s.targetState →
      (getTargetStateHandler s).1 = Except.ok s.targetState ∧
      (getTargetStateHandler s).2 = s) := by
  unfold getTargetStateHandler
  split_ifs with h1 h2 <;> simp_all

/-- Witness for C7: with currentState observed as CLOSED and targetState
still unset, get_target_state answers CLOSED. -/
theorem getTargetState_spec_witness :
    (getTargetStateHandler { currentState := 1, targetState := -1 }).1 = Except.ok 1 ∧
    (getTargetStateHandler { currentState := 1, targetState := -1 }).2 =
      { currentState := 1, targetState := 1 } :=
  (getTargetState_spec { currentState := 1, targetState := -1 }).2.1
    (by decide) (by decide)

/-- C8: a set_target_state request equal to the present targetState is
answered with success, issues no Adapter command and changes neither
currentState nor targetState, so repeating the same request is idempotent. -/
theorem setTargetState_noop_idempotent (device : RemootioDevice) (x : Int)
    (s : ReconcilerState) (h : x = s.targetState) :
    setTargetStateHandler device (some x) s = (Except.ok (), s, []) := by
  simp [setTargetStateHandler, h]

/-- Witness for C8 at a disconnected device: even then the no-op request
succeeds without any command. -/
theorem setTargetState_noop_idempotent_witness :
    setTargetStateHandler { isConnected := false, isAuthenticated := false }
      (some 1) { currentState := 1, targetState := 1 } =
      (Except.ok (), { currentState := 1, targetState := 1 }, []) :=
  setTargetState_noop_idempotent { isConnected := false, isAuthenticated := false }
    1 { currentState := 1, targetState := 1 } rfl

/-- C9: a set_target_state request that differs from the present
targetState while the Adapter is not connected or not authenticated is
answered with the Not Connected error, issues no command and leaves the
state unchanged. -/
theorem setTargetState_not_connected (device : RemootioDevice) (x : Int)
    (s : ReconcilerState) (hx : x ≠ s.targetState)
    (hconn : device.isConnected = false ∨ device.isAuthenticated = false) :
    setTargetStateHandler device (some x) s = (Except.error "Not Connected", s, []) := by
  rcases hconn with h | h <;> simp [setTargetStateHandler, hx, h]

/-- Witness for C9: requesting OPEN while disconnected. -/
theorem setTargetState_not_connected_witness :
    setTargetStateHandler { isConnected := false, isAuthenticated := true }
      (some 0) { currentState := 1, targetState := 1 } =
      (Except.error "Not Connected", { currentState := 1, targetState := 1 }, []) :=
  setTargetState_not_connected { isConnected := false, isAuthenticated := true }
    0 { currentState := 1, targetState := 1 } (by decide) (Or.inl rfl)

/-- Counterexample to C3 as stated: get_current_state issues its sendQuery
command even while the Adapter is neither connected nor authenticated, so
it is not true that every Adapter command is gated on both flags. -/
theorem query_issued_while_disconnected :
    (getCurrentStateHandler { isConnected := false, isAuthenticated := false }
       initialState).2.2 = [Command.sendQuery] := rfl

/-- C3 amended: only sendOpen and sendClose are gated on the connectivity
flags: a set_target_state request while either flag is false issues no
command and leaves the state unchanged, whereas get_current_state issues
its sendQuery command unconditionally on every call. -/
theorem commands_gated_on_connection :
    (∀ (device : RemootioDevice) (newValue : Option Int) (s : ReconcilerState),
       device.isConnected = false ∨ device.isAuthenticated = false →
       (setTargetStateHandler device newValue s).2.2 = [] ∧
       (setTargetStateHandler device newValue s).2.1 = s) ∧
    (∀ (device : RemootioDevice) (s : ReconcilerState),
       (getCurrentStateHandler device s).2.2 = [Command.sendQuery]) := by
  constructor
  · intro device newValue s hconn
    match newValue with
    | none => simp [setTargetStateHandler]
    | some v =>
      by_cases hx : v = s.targetState
      · simp [setTargetStateHandler, hx]
      · rcases hconn with h | h <;> simp [setTargetStateHandler, hx, h]
  · intro device s
    rfl

/-- Witness for the amended C3 at a disconnected device. -/
theorem commands_gated_on_connection_witness :
    (setTargetStateHandler { isConnected := false, isAuthenticated := false }
       (some 0) initialState).2.2 = [] ∧
    (getCurrentStateHandler { isConnected := false, isAuthenticated := false }
       initialState).2.2 = [Command.sendQuery] :=
  ⟨(commands_gated_on_connection.1 { isConnected := false, isAuthenticated := false }
      (some 0) initialState (Or.inl rfl)).1,
   commands_gated_on_connection.2 { isConnected := false, isAuthenticated := false }
     initialState⟩

/-- C1: a RelayTrigger event is acted on only when its keyType is the api
key: without it the whole state is left unchanged, and with it state open
infers CLOSING and state closed infers OPENING, in both cases leaving
targetState untouched. -/
theorem relayTrigger_gated_by_api_key (ev : RemootioEvent) (s : ReconcilerState)
    (hty : ev.type = "RelayTrigger") :
    (ev.data.bind RemootioEventData.keyType ≠ some "api key" →
       handleIncomingMessage none (some { event := some ev, response := none }) s = s) ∧
    (ev.data.bind RemootioEventData.keyType = some "api key" →
       (ev.state = some "open" →
          (handleIncomingMessage none
              (some { event := some ev, response := none }) s).currentState =
            currentDoorState.CLOSING ∧
          (handleIncomingMessage none
              (some { event := some ev, response := none }) s).targetState =
            s.targetState) ∧
       (ev.state = some "closed" →
          (handleIncomingMessage none
              (some { event := some ev, response := none }) s).currentState =
            currentDoorState.OPENING ∧
          (handleIncomingMessage none
              (some { event := some ev, response := none }) s).targetState =
            s.targetState)) := by
  refine ⟨fun hk => ?_, fun hk => ⟨fun hst => ?_, fun hst => ?_⟩⟩
  · unfold handleIncomingMessage
    rcases hs : ev.state with _ | st
    · simp [hs]
    · simp [hs, hty, hk]
  · unfold handleIncomingMessage
    simp [hty, hst, hk, setCurrentDoorState]
  · unfold handleIncomingMessage
    simp [hty, hst, hk, setCurrentDoorState]

/-- Witness for C1: an api-key RelayTrigger with state open infers CLOSING,
and the same trigger fired by another key leaves the initial state
unchanged. -/
theorem relayTrigger_gated_by_api_key_witness :
    (handleIncomingMessage none
        (some { event := some { cnt := 0, type := "RelayTrigger", state := some "open",
                                t100ms := 0,
                                data := some { keyNr := some 1, keyType := some "api key",
                                               via := some "wifi",
                                               imeOpen100ms := none } },
                response := none }) initialState).currentState =
      currentDoorState.CLOSING ∧
    handleIncomingMessage none
        (some { event := some { cnt := 0, type := "RelayTrigger", state := some "open",
                                t100ms := 0,
                                data := some { keyNr := some 2, keyType := some "master key",
                                               via := some "wifi",
                                               imeOpen100ms := none } },
                response := none }) initialState = initialState := by
  constructor
  · exact (((relayTrigger_gated_by_api_key
      { cnt := 0, type := "RelayTrigger", state := some "open", t100ms := 0,
        data := some { keyNr := some 1, keyType := some "api key", via := some "wifi",
                       imeOpen100ms := none } }
      initialState rfl).2 rfl).1 rfl).1
  · exact (relayTrigger_gated_by_api_key
      { cnt := 0, type := "RelayTrigger", state := some "open", t100ms := 0,
        data := some { keyNr := some 2, keyType := some "master key", via := some "wifi",
                       imeOpen100ms := none } }
      initialState rfl).1 (by decide)

/-- C2: a StateChange event reporting closed sets currentState to CLOSED
and also forces targetState to CLOSED, whatever both held before. -/
theorem stateChange_closed_forces_target (ev : RemootioEvent) (s : ReconcilerState)
    (h1 : ev.type = "StateChange") (h2 : ev.state = some "closed") :
    (handleIncomingMessage none
        (some { event := some ev, response := none }) s).currentState =
      currentDoorState.CLOSED ∧
    (handleIncomingMessage none
        (some { event := some ev, response := none }) s).targetState =
      targetDoorState.CLOSED := by
  unfold handleIncomingMessage
  simp [h1, h2, setCurrentDoorState]

/-- Witness for C2 at a prior targetState of OPEN. -/
theorem stateChange_closed_forces_target_witness :
    (handleIncomingMessage none
        (some { event := some { cnt := 3, type := "StateChange", state := some "closed",
                                t100ms := 7, data := none }, response := none })
        { currentState := 3, targetState := 0 }).currentState =
      currentDoorState.CLOSED ∧
    (handleIncomingMessage none
        (some { event := some { cnt := 3, type := "StateChange", state := some "closed",
                                t100ms := 7, data := none }, response := none })
        { currentState := 3, targetState := 0 }).targetState =
      targetDoorState.CLOSED :=
  stateChange_closed_forces_target
    { cnt := 3, type := "StateChange", state := some "closed", t100ms := 7, data := none }
    { currentState := 3, targetState := 0 } rfl rfl

/-- Counterexample to C4 as stated: a StateChange reporting stopped falls
through the switch, so from the initial state get_current_state still
errors instead of returning STOPPED. -/
theorem stateChange_stopped_unobserved :
    (handleIncomingMessage none
        (some { event := some { cnt := 0, type := "StateChange", state := some "stopped",
                                t100ms := 0, data := none }, response := none })
        initialState).currentState ≠ currentDoorState.STOPPED ∧
    (getCurrentStateHandler { isConnected := true, isAuthenticated := true }
        (handleIncomingMessage none
          (some { event := some { cnt := 0, type := "StateChange", state := some "stopped",
                                  t100ms := 0, data := none }, response := none })
          initialState)).1 = Except.error "No value available" :=
  ⟨by decide, rfl⟩

/-- C4 amended: for the four recognized reported states open, closed,
opening and closing, after a StateChange carrying the state,
get_current_state answers the matching door state; a reported stopped
state is ignored by the switch and never observed. -/
theorem stateChange_then_get_current (device : RemootioDevice) (ev : RemootioEvent)
    (s : ReconcilerState) (st : String) (v : Int)
    (hty : ev.type = "StateChange") (hst : ev.state = some st)
    (hmem : (st, v) ∈ [("open", currentDoorState.OPEN),
                       ("closed", currentDoorState.CLOSED),
                       ("opening", currentDoorState.OPENING),
                       ("closing", currentDoorState.CLOSING)]) :
    (getCurrentStateHandler device
        (handleIncomingMessage none
          (some { event := some ev, response := none }) s)).1 = Except.ok v := by
  unfold handleIncomingMessage getCurrentStateHandler
  simp only [List.mem_cons, List.not_mem_nil, or_false, Prod.mk.injEq] at hmem
  rcases hmem with ⟨h1, h2⟩ | ⟨h1, h2⟩ | ⟨h1, h2⟩ | ⟨h1, h2⟩ <;> subst h1 <;> subst h2 <;>
    simp [hty, hst, setCurrentDoorState, currentDoorState.OPEN, currentDoorState.CLOSED,
      currentDoorState.OPENING, currentDoorState.CLOSING]

/-- Witness for the amended C4 at the reported state opening. -/
theorem stateChange_then_get_current_witness :
    (getCurrentStateHandler { isConnected := true, isAuthenticated := true }
        (handleIncomingMessage none
          (some { event := some { cnt := 1, type := "StateChange", state := some "opening",
                                  t100ms := 2, data := none }, response := none })
          initialState)).1 = Except.ok currentDoorState.OPENING :=
  stateChange_then_get_current { isConnected := true, isAuthenticated := true }
    { cnt := 1, type := "StateChange", state := some "opening", t100ms := 2, data := none }
    initialState "opening" currentDoorState.OPENING rfl rfl (by simp)

/-- Counterexample to C5 as stated: a QUERY response reporting stopped
leaves an inferred OPENING currentState untouched instead of setting it to
STOPPED. -/
theorem queryResponse_stopped_ignored :
    (handleIncomingMessage none
        (some { event := none,
                response := some { type := "QUERY", id := 0, success := true,
                                   state := some "stopped", t100ms := 0,
                                   relayTriggered := false, errorCode := "" } })
        { currentState := currentDoorState.OPENING, targetState := -1 }).currentState =
      currentDoorState.OPENING ∧
    currentDoorState.OPENING ≠ currentDoorState.STOPPED :=
  ⟨rfl, by decide⟩

/-- C5 amended: for the four recognized reported states open, closed,
opening and closing, a QUERY response carrying the state sets currentState
to the matching door state whatever it held before, also overriding the
inferred transitional values; an unrecognized reported state such as
stopped leaves currentState unchanged. -/
theorem queryResponse_overrides_current (resp : RemootioResponse)
    (s : ReconcilerState) (st : String) (v : Int)
    (hty : resp.type = "QUERY") (hst : resp.state = some st)
    (hmem : (st, v) ∈ [("open", currentDoorState.OPEN),
                       ("closed", currentDoorState.CLOSED),
                       ("opening", currentDoorState.OPENING),
                       ("closing", currentDoorState.CLOSING)]) :
    (handleIncomingMessage none
        (some { event := none, response := some resp }) s).currentState = v := by
  unfold handleIncomingMessage
  simp only [List.mem_cons, List.not_mem_nil, or_false, Prod.mk.injEq] at hmem
  rcases hmem with ⟨h1, h2⟩ | ⟨h1, h2⟩ | ⟨h1, h2⟩ | ⟨h1, h2⟩ <;> subst h1 <;> subst h2 <;>
    simp [hty, hst, setCurrentDoorState]

/-- Witness for the amended C5: a QUERY response reporting closed
overrides an inferred CLOSING currentState. -/
theorem queryResponse_overrides_current_witness :
    (handleIncomingMessage none
        (some { event := none,
                response := some { type := "QUERY", id := 5, success := true,
                                   state := some "closed", t100ms := 9,
                                   relayTriggered := false, errorCode := "" } })
        { currentState := currentDoorState.CLOSING, targetState := 1 }).currentState =
      currentDoorState.CLOSED :=
  queryResponse_overrides_current
    { type := "QUERY", id := 5, success := true, state := some "closed", t100ms := 9,
      relayTriggered := false, errorCode := "" }
    { currentState := currentDoorState.CLOSING, targetState := 1 } "closed"
    currentDoorState.CLOSED rfl rfl (by simp)

/-- The switch of setCurrentDoorState writes only the four recognized door
state values, so it preserves ValidCurrent. -/
theorem validCurrent_setCurrentDoorState (st : String) (s : ReconcilerState)
    (h : ValidCurrent s) : ValidCurrent (setCurrentDoorState st s) := by
  unfold setCurrentDoorState
  split_ifs <;>
    simp_all [ValidCurrent, currentDoorState.OPEN, currentDoorState.CLOSED,
      currentDoorState.OPENING, currentDoorState.CLOSING]

/-- handleIncomingMessage only ever writes currentState through
setCurrentDoorState, so it preserves ValidCurrent. -/
theorem validCurrent_handleIncomingMessage (frame : Option RemootioFrame)
    (p : Option RemootioDecryptedPayload) (s : ReconcilerState)
    (h : ValidCurrent s) : ValidCurrent (handleIncomingMessage frame p s) := by
  unfold handleIncomingMessage
  repeat' split
  all_goals
    repeat' first
      | exact h
      | apply validCurrent_setCurrentDoorState

/-- C10: in every reachable state, currentState is the UNKNOWN sentinel or
one of OPEN, CLOSED, OPENING and CLOSING, and a device-reported state
string outside the four recognized ones leaves the state unchanged, so the
STOPPED value of the door state model is never reachable. -/
theorem reachable_currentState_valid :
    (∀ s : ReconcilerState, Reachable s → ValidCurrent s) ∧
    (∀ (st : String) (s : ReconcilerState),
       st ≠ "open" → st ≠ "closed" → st ≠ "opening" → st ≠ "closing" →
       setCurrentDoorState st s = s) := by
  constructor
  · intro s h
    induction h with
    | init => exact Or.inl rfl
    | incoming frame p s hs ih => exact validCurrent_handleIncomingMessage frame p s ih
    | getCurrent device s hs ih => exact ih
    | getTarget s hs ih =>
      unfold getTargetStateHandler
      split_ifs <;> exact ih
    | setTarget device newValue s hs ih =>
      match newValue with
      | none => exact ih
      | some v =>
        unfold setTargetStateHandler
        dsimp only
        split_ifs <;> exact ih
  · intro st s h1 h2 h3 h4
    unfold setCurrentDoorState
    simp [h1, h2, h3, h4]

/-- Witness for C10 at the initial state and the reported state stopped. -/
theorem reachable_currentState_valid_witness :
    ValidCurrent initialState ∧
    setCurrentDoorState "stopped" initialState = initialState :=
  ⟨reachable_currentState_valid.1 initialState Reachable.init,
   reachable_currentState_valid.2 "stopped" initialState
     (by decide) (by decide) (by decide) (by decide)⟩

end Remootio
